import Mathlib

/-!
Shallow embedding of the ruleco Coordinator core (LECO control protocol router).

Byte strings are `List Nat` (each element an ASCII byte value).  Rust `Instant`
timestamps and `Duration` thresholds are modelled as `Nat` seconds.  A Rust
panic (an `unwrap` on `None`/`Err`, or an out-of-range slice index) is modelled
by an `Option` result whose `none` value marks the panic.  External
collaborators (the zmq transport, serde_json, the uuid crate) are not part of
the repository source; serde_json is abstracted as a `JsonCodec` record of the
four entry points the core calls, and the uuid generator is modelled from the
spec (see `create_conversation_id`).
-/

namespace Ruleco

/-- ASCII byte values of a string literal (every name in the repository is ASCII). -/
def bytes (s : String) : List Nat := s.data.map Char.toNat

/-- Big-endian base-256 digits of a value, `w` bytes wide (most significant first). -/
def natToBE : Nat → Nat → List Nat
  | 0, _ => []
  | w + 1, v => v / 256 ^ w :: natToBE w (v % 256 ^ w)

/-- Modelled from the spec: `core::create_conversation_id` in src/lib.rs calls
`uuid::Uuid::now_v7().into_bytes()`; the uuid crate is an external collaborator whose
code is not in the repository.  The spec (section 4.E) requires a time-ordered UUIDv7
value: 16 bytes laid out as the 48-bit big-endian Unix timestamp in milliseconds
followed by 10 bytes of version, variant and random bits (`rest`). -/
def create_conversation_id (ts_ms : Nat) (rest : List Nat) : List Nat :=
  natToBE 6 ts_ms ++ rest

/-- Translation of `core::ContentTypes` (src/lib.rs). -/
inductive ContentTypes where
  | Frames (frames : List (List Nat))
  | Frame (frame : List Nat)
  | Null
deriving DecidableEq

/-- Translation of `core::FullName` (src/lib.rs); the borrowed byte slices become owned lists. -/
structure FullName where
  nspace : List Nat
  name : List Nat
deriving DecidableEq

/-- Translation of Rust `slice.split(|e| *e == 46u8)` used by `FullName::from_vec` /
`from_slice`: groups of bytes between occurrences of the ASCII dot (46). -/
def splitDot : List Nat → List (List Nat)
  | [] => [[]]
  | b :: rest =>
      if b = 46 then [] :: splitDot rest
      else
        match splitDot rest with
        | [] => [[b]]
        | g :: gs => (b :: g) :: gs

/-- Translation of `FullName::from_split` (src/lib.rs lines 59-71): one part means an
empty namespace, two parts are namespace and name, any other count is an error. -/
def FullName.from_split (split : List (List Nat)) : Except String FullName :=
  match split with
  | [a] => .ok ⟨[], a⟩
  | [a, b] => .ok ⟨a, b⟩
  | x => .error ("Invalid number " ++ toString x.length ++ " of elements in name found.")

/-- Translation of `FullName::from_vec` (src/lib.rs). -/
def FullName.from_vec (vec : List Nat) : Except String FullName :=
  FullName.from_split (splitDot vec)

/-- Translation of `FullName::from_slice` (src/lib.rs). -/
def FullName.from_slice (slice : List Nat) : Except String FullName :=
  FullName.from_split (splitDot slice)

/-- LECO protocol version constant (src/lib.rs line 5). -/
def VERSION : Nat := 0

/-- Translation of `Header` (src/control_protocol.rs lines 8-12). -/
structure Header where
  conversation_id : List Nat
  message_id : List Nat
  message_type : Nat
deriving DecidableEq

/-- Translation of `Header::from_frame` (src/control_protocol.rs lines 13-21): Rust
slices `frame[..16]`, `frame[16..19]` and indexes `frame[19]`; on a frame shorter
than 20 bytes the first out-of-range access panics, modelled as `none`. -/
def Header.from_frame (frame : List Nat) : Option Header :=
  if frame.length < 20 then none
  else some ⟨frame.take 16, (frame.drop 16).take 3, frame[19]?.getD 0⟩

/-- Translation of `control_protocol::Message` (src/control_protocol.rs lines 23-26). -/
structure Message where
  frames : List (List Nat)
deriving DecidableEq

/-- Translation of `Message::new` (src/control_protocol.rs lines 29-37); the
`io::Error` payload is modelled by its message string. -/
def Message.new (frames : List (List Nat)) : Except String Message :=
  if frames.length < 4 then .error "Not enough frames." else .ok ⟨frames⟩

/-- Translation of `Message::build` (src/control_protocol.rs lines 38-62).  `fresh`
stands for the value `create_conversation_id()` would return at this call, used
when `conversation_id` is absent. -/
def Message.build (receiver sender : List Nat) (conversation_id : Option (List Nat))
    (message_id : Option (List Nat)) (message_type : Nat) (content : ContentTypes)
    (fresh : List Nat) : Message :=
  let header := conversation_id.getD fresh ++ message_id.getD [0, 0, 0] ++ [message_type]
  let base : List (List Nat) := [[VERSION], receiver, sender, header]
  match content with
  | .Frame frame => ⟨base ++ [frame]⟩
  | .Frames frames => ⟨base ++ frames⟩
  | .Null => ⟨base⟩

/-- Translation of `Message::version`.  Indexing `frames[0]` in Rust panics only on a
vector with fewer than one frame, which `new` and `build` never produce. -/
def Message.version (m : Message) : Option Nat := (m.frames.getD 0 [])[0]?

/-- Translation of `Message::receiver_frame` (`&self.frames[1]`). -/
def Message.receiver_frame (m : Message) : List Nat := m.frames.getD 1 []

/-- Translation of `Message::receiver`: `FullName::from_vec(..).unwrap()`; the Rust
panic on a malformed name is modelled as `none`. -/
def Message.receiver (m : Message) : Option FullName :=
  (FullName.from_vec m.receiver_frame).toOption

/-- Translation of `Message::sender_frame` (`&self.frames[2]`). -/
def Message.sender_frame (m : Message) : List Nat := m.frames.getD 2 []

/-- Translation of `Message::sender` with the same panic convention as `receiver`. -/
def Message.sender (m : Message) : Option FullName :=
  (FullName.from_vec m.sender_frame).toOption

/-- Translation of `Message::header` (`Header::from_frame(&self.frames[3])`). -/
def Message.header (m : Message) : Option Header :=
  Header.from_frame (m.frames.getD 3 [])

/-- Translation of `Message::content_frame` (`self.frames.get(4)`). -/
def Message.content_frame (m : Message) : Option (List Nat) := m.frames[4]?

/-- Translation of `Message::payload` (`&self.frames[4..]`). -/
def Message.payload (m : Message) : List (List Nat) := m.frames.drop 4

/-- Translation of `Message::to_frames`. -/
def Message.to_frames (m : Message) : List (List Nat) := m.frames

/-- Translation of `control_protocol::Error` (src/control_protocol.rs lines 92-106). -/
inductive Error where
  | InvalidRequest
  | MethodNotFound
  | InvalidParams
  | InternalError
  | ParseError
  | ServerError
  | NotSignedIn
  | DuplicateName
  | NodeUnknown
  | ReceiverUnknown
deriving DecidableEq

/-- Translation of `Error::code` (src/control_protocol.rs lines 109-123). -/
def Error.code : Error → Int
  | .InvalidRequest => -32600
  | .MethodNotFound => -32601
  | .InvalidParams => -32602
  | .InternalError => -32603
  | .ParseError => -32700
  | .ServerError => -32000
  | .NotSignedIn => -32090
  | .DuplicateName => -32091
  | .NodeUnknown => -32092
  | .ReceiverUnknown => -32093

/-- Translation of `Error::message` (src/control_protocol.rs lines 125-133). -/
def Error.message : Error → String
  | .NotSignedIn => "Component not signed in yet!"
  | .DuplicateName => "The name is already taken."
  | .NodeUnknown => "Node is unknown."
  | .ReceiverUnknown => "Receiver is not in addresses list."
  | _ => "Server error."

/-- Minimal `serde_json::Value`: the Coordinator only ever serializes `null`
(for `Option::<u8>::None` results) or a number. -/
inductive JsonValue where
  | null
  | num (n : Nat)
deriving DecidableEq

/-- Translation of `json::Request` (src/json.rs lines 6-11). -/
structure Request where
  jsonrpc : String
  id : Nat
  method : String
deriving DecidableEq

/-- Translation of `Request::build` (src/json.rs lines 12-20). -/
def Request.build (id : Nat) (method : String) : Request := ⟨"2.0", id, method⟩

/-- Translation of `json::Response` (src/json.rs lines 22-27). -/
structure Response where
  jsonrpc : String
  id : Nat
  result : JsonValue
deriving DecidableEq

/-- Translation of `Response::build` (src/json.rs lines 28-36); the Coordinator always
passes an `Option<u8>` result and `serde_json::json!(None)` is `null`. -/
def Response.build (id : Nat) (result : Option Nat) : Response :=
  ⟨"2.0", id, match result with | none => .null | some n => .num n⟩

/-- Translation of `json::ErrorContent` (src/json.rs lines 38-42). -/
structure ErrorContent where
  code : Int
  message : String
deriving DecidableEq

/-- Translation of `json::ErrorResponse` (src/json.rs lines 44-49). -/
structure ErrorResponse where
  jsonrpc : String
  id : Nat
  error : ErrorContent
deriving DecidableEq

/-- Translation of `ErrorResponse::build` (src/json.rs lines 50-62). -/
def ErrorResponse.build (id : Nat) (code : Int) (message : String) : ErrorResponse :=
  ⟨"2.0", id, ⟨code, message⟩⟩

/-- The serde_json entry points the core calls (`from_slice::<Request>` and
`to_vec` on the three envelopes).  serde_json is an external crate; the spec
(sections 1 and 4.D) treats the JSON codec as an interface the core consumes, so
the routing functions are parametric in this record. -/
structure JsonCodec where
  parseRequest : List Nat → Option Request
  serRequest : Request → List Nat
  serResponse : Response → List Nat
  serErrorResponse : ErrorResponse → List Nat

/-- Translation of `json::is_sign_in` (src/json.rs lines 68-73). -/
def is_sign_in (codec : JsonCodec) (slice : List Nat) : Bool :=
  match codec.parseRequest slice with
  | none => false
  | some request => request.method == "sign_in"

/-- Translation of `Component` (src/bin/coordinator.rs lines 39-42); `Instant` becomes
a `Nat` time in seconds. -/
structure Component where
  identity : List Nat
  timestamp : Nat
deriving DecidableEq

/-- Translation of `Component::build` with `now` standing for `Instant::now()`. -/
def Component.build (identity : List Nat) (now : Nat) : Component := ⟨identity, now⟩

/-- Translation of `Coordinator` state (src/bin/coordinator.rs lines 56-62) without the
zmq socket; the `HashMap<Vec<u8>, Component>` becomes an association list. -/
structure Coordinator where
  nspace : List Nat
  full_name : List Nat
  components : List (List Nat × Component)
  running : Bool
deriving DecidableEq

/-- Translation of `MessageContainer` (src/bin/coordinator.rs lines 27-30). -/
structure MessageContainer where
  identity : List Nat
  message : Message
deriving DecidableEq

/-- Translation of `SendingContainer` (src/bin/coordinator.rs lines 33-36). -/
structure SendingContainer where
  receiving_nspace : List Nat
  msg_cont : MessageContainer
deriving DecidableEq

/-- `HashMap::get` on the association-list model (keys are unique). -/
def mapGet (m : List (List Nat × Component)) (k : List Nat) : Option Component :=
  match m with
  | [] => none
  | (k2, v) :: rest => if k2 = k then some v else mapGet rest k

/-- `HashMap::insert` on the association-list model: replaces an existing binding. -/
def mapInsert (m : List (List Nat × Component)) (k : List Nat) (v : Component) :
    List (List Nat × Component) :=
  match m with
  | [] => [(k, v)]
  | (k2, v2) :: rest => if k2 = k then (k, v) :: rest else (k2, v2) :: mapInsert rest k v

/-- `HashMap::remove` on the association-list model. -/
def mapRemove (m : List (List Nat × Component)) (k : List Nat) :
    List (List Nat × Component) :=
  match m with
  | [] => []
  | (k2, v2) :: rest => if k2 = k then rest else (k2, v2) :: mapRemove rest k

/-- The `get_mut` + `component.timestamp = Instant::now()` update in `check_message`. -/
def mapTouch (m : List (List Nat × Component)) (k : List Nat) (now : Nat) :
    List (List Nat × Component) :=
  match m with
  | [] => []
  | (k2, v) :: rest =>
      if k2 = k then (k2, { v with timestamp := now }) :: rest
      else (k2, v) :: mapTouch rest k now

/-- Translation of `Coordinator::find_routing_information`
(src/bin/coordinator.rs lines 179-192). -/
def find_routing_information (c : Coordinator) (receiver_name : FullName) :
    Except Error (List Nat × List Nat) :=
  if receiver_name.nspace = c.nspace ∨ receiver_name.nspace.length = 0 then
    match mapGet c.components receiver_name.name with
    | some comp => .ok ([], comp.identity)
    | none => .error .ReceiverUnknown
  else .error .NodeUnknown

/-- Translation of `Coordinator::sign_in` (src/bin/coordinator.rs lines 329-333);
the Rust generic `Result<(), E>` is always `Ok`, so only the new state is returned. -/
def Coordinator.sign_in (c : Coordinator) (identity : List Nat) (sender_name : FullName)
    (now : Nat) : Coordinator :=
  { c with components := mapInsert c.components sender_name.name (Component.build identity now) }

/-- Translation of `Coordinator::sign_out` (src/bin/coordinator.rs lines 335-338). -/
def Coordinator.sign_out (c : Coordinator) (sender_name : FullName) :
    Except Error (Option Nat) × Coordinator :=
  (.ok none, { c with components := mapRemove c.components sender_name.name })

/-- Translation of `Coordinator::shut_down` (src/bin/coordinator.rs lines 341-344). -/
def Coordinator.shut_down (c : Coordinator) : Except Error (Option Nat) × Coordinator :=
  (.ok none, { c with running := false })

/-- Translation of `Coordinator::check_message` (src/bin/coordinator.rs lines 201-230).
The Rust `message.content_frame().unwrap()` panics when the frame is absent (only
reached when the sender is unknown and the receiver short-name is COORDINATOR, because
`&&` short-circuits); the panic is the `none` result. -/
def check_message (c : Coordinator) (codec : JsonCodec) (identity : List Nat)
    (message : Message) (sender_name receiver_name : FullName) (now : Nat) :
    Option (Except Error Unit × Coordinator) :=
  match mapGet c.components sender_name.name with
  | some component =>
      if component.identity = identity then
        some (.ok (), { c with components := mapTouch c.components sender_name.name now })
      else some (.error .DuplicateName, c)
  | none =>
      if receiver_name.name = bytes "COORDINATOR" then
        match message.content_frame with
        | none => none
        | some content =>
            if is_sign_in codec content then some (.ok (), c.sign_in identity sender_name now)
            else some (.error .NotSignedIn, c)
      else some (.error .NotSignedIn, c)

/-- Translation of `Coordinator::create_error` (src/bin/coordinator.rs lines 256-274). -/
def create_error (c : Coordinator) (codec : JsonCodec) (receiver : List Nat) (error : Error)
    (conversation_id : Option (List Nat)) (fresh : List Nat) : Message :=
  let error_r := ErrorResponse.build 0 error.code error.message
  let error_msg := codec.serErrorResponse error_r
  Message.build receiver c.full_name conversation_id none 1 (.Frame error_msg) fresh

/-- Translation of `Coordinator::create_response` (src/bin/coordinator.rs lines 276-294). -/
def create_response (c : Coordinator) (codec : JsonCodec) (receiver : List Nat) (id : Nat)
    (conversation_id : Option (List Nat)) (result : Option Nat) (fresh : List Nat) : Message :=
  let response := Response.build id result
  let response_msg := codec.serResponse response
  Message.build receiver c.full_name conversation_id none 1 (.Frame response_msg) fresh

/-- Translation of `Coordinator::handle_message_content`
(src/bin/coordinator.rs lines 303-327).  `message.header()` is evaluated before the
content checks (line 307) and panics (`none`) on a header frame shorter than 20 bytes;
the Rust `match &request.method[..]` string match is the if-chain. -/
def handle_message_content (c : Coordinator) (codec : JsonCodec) (message : Message)
    (sender_name : FullName) (fresh : List Nat) : Option (Message × Coordinator) :=
  let receiver := message.sender_frame
  match message.header with
  | none => none
  | some h =>
    let conversation_id := some h.conversation_id
    match message.content_frame with
    | none => some (create_error c codec receiver .ParseError conversation_id fresh, c)
    | some content =>
      match codec.parseRequest content with
      | none => some (create_error c codec receiver .ParseError conversation_id fresh, c)
      | some request =>
        let rc : Except Error (Option Nat) × Coordinator :=
          if request.method = "sign_in" then (.ok none, c)
          else if request.method = "sign_out" then c.sign_out sender_name
          else if request.method = "pong" then (.ok none, c)
          else if request.method = "shut_down" then c.shut_down
          else (.error .InvalidRequest, c)
        match rc with
        | (.ok result, c1) =>
            some (create_response c1 codec receiver request.id conversation_id result fresh, c1)
        | (.error error, c1) =>
            some (create_error c1 codec receiver error conversation_id fresh, c1)

/-- Translation of `Coordinator::route_message` (src/bin/coordinator.rs lines 120-176).
`message.sender()`, `message.receiver()` and `message.header()` unwraps propagate as
`none` (panic).  The routing result pairs the optional `SendingContainer` with the
updated Coordinator state. -/
def route_message (c : Coordinator) (codec : JsonCodec) (msg_cont : MessageContainer)
    (now : Nat) (fresh : List Nat) : Option (Option SendingContainer × Coordinator) :=
  let identity := msg_cont.identity
  let message := msg_cont.message
  match message.sender with
  | none => none
  | some sender_name =>
    match message.receiver with
    | none => none
    | some receiver_name =>
      match check_message c codec identity message sender_name receiver_name now with
      | none => none
      | some (.error error, c1) =>
          match message.header with
          | none => none
          | some h =>
            let emsg := create_error c1 codec message.sender_frame error
              (some h.conversation_id) fresh
            some (some ⟨[], identity, emsg⟩, c1)
      | some (.ok (), c1) =>
          let step : Option (Message × FullName × Coordinator) :=
            if receiver_name.name = bytes "COORDINATOR" ∧
                (receiver_name.nspace = c1.nspace ∨ receiver_name.nspace.length = 0) then
              match handle_message_content c1 codec message sender_name fresh with
              | none => none
              | some (m2, c2) =>
                  match m2.receiver with
                  | none => none
                  | some r2 => some (m2, r2, c2)
            else some (message, receiver_name, c1)
          match step with
          | none => none
          | some (message2, receiver2, c2) =>
            match find_routing_information c2 receiver2 with
            | .error error =>
                match message2.header with
                | none => none
                | some h =>
                  let emsg := create_error c2 codec message2.receiver_frame error
                    (some h.conversation_id) fresh
                  match emsg.receiver with
                  | none => none
                  | some ername =>
                    match find_routing_information c2 ername with
                    | .error _ => some (none, c2)
                    | .ok (nspace2, identity2) =>
                        some (some ⟨nspace2, identity2, emsg⟩, c2)
            | .ok (nspace2, identity2) =>
                some (some ⟨nspace2, identity2, message2⟩, c2)

/-- Translation of `Coordinator::send_local_ping` (src/bin/coordinator.rs lines 232-244)
up to the transport write: the identity frame and message it would put on the socket. -/
def send_local_ping (c : Coordinator) (codec : JsonCodec) (identity name : List Nat)
    (fresh : List Nat) : List Nat × Message :=
  let rq := Request.build 0 "pong"
  let message := Message.build name c.full_name none none 1
    (.Frame (codec.serRequest rq)) fresh
  (identity, message)

/-- The ping pass of `check_timeouts`: the `for (k, v) in self.components.iter()` loop,
pinging every entry idle for at least 10 seconds.  `gen i` is the conversation id the
i-th ping generates. -/
def ping_stale (c : Coordinator) (codec : JsonCodec) (now : Nat) (gen : Nat → List Nat) :
    List (List Nat × Component) → Nat → List (List Nat × Message)
  | [], _ => []
  | (k, v) :: rest, i =>
      if 10 ≤ now - v.timestamp then
        send_local_ping c codec v.identity k (gen i) :: ping_stale c codec now gen rest (i + 1)
      else ping_stale c codec now gen rest i

/-- Translation of `Coordinator::check_timeouts` (src/bin/coordinator.rs lines 246-254):
ping entries idle at least 10 s, then `retain` the entries idle at most 30 s. -/
def check_timeouts (c : Coordinator) (codec : JsonCodec) (now : Nat)
    (gen : Nat → List Nat) : Coordinator × List (List Nat × Message) :=
  let pings := ping_stale c codec now gen c.components 0
  let retained := c.components.filter fun kv => decide (now - kv.2.timestamp ≤ 30)
  ({ c with components := retained }, pings)

/-- A degenerate but executable serde stand-in used for concrete evaluations whose
outcome does not depend on the JSON bytes. -/
def codec0 : JsonCodec :=
  { parseRequest := fun _ => none
    serRequest := fun _ => []
    serResponse := fun _ => []
    serErrorResponse := fun _ => [] }

/-- A 20-byte all-zero header frame (zero conversation id, zero message id, type 0). -/
def hdr20 : List Nat := List.replicate 20 0

/-- Scenario state for the unknown-receiver routing claim: directory `com_A -> id_A`. -/
def cC1 : Coordinator :=
  { nspace := bytes "N1"
    full_name := bytes "N1.COORDINATOR"
    components := [(bytes "com_A", ⟨bytes "id_A", 0⟩)]
    running := true }

/-- Inbound message for the unknown-receiver scenario: receiver `com_Z`, sender `com_A`. -/
def msgC1 : Message := ⟨[[0], bytes "com_Z", bytes "com_A", hdr20]⟩

/-- Coordinator with an empty directory. -/
def cEmpty : Coordinator :=
  { nspace := bytes "N1"
    full_name := bytes "N1.COORDINATOR"
    components := []
    running := true }

/-- A four-frame message addressed to COORDINATOR with no content frame, from `com_C`. -/
def msgC2 : Message := ⟨[[0], bytes "COORDINATOR", bytes "com_C", hdr20]⟩

/-- A four-frame message addressed to COORDINATOR with no content frame, from `com_D`. -/
def msgC3 : Message := ⟨[[0], bytes "COORDINATOR", bytes "com_D", hdr20]⟩

/-- Directory for the timeout-boundary scenario: `com_A` last seen at time 0. -/
def cC6 : Coordinator :=
  { nspace := bytes "N1"
    full_name := bytes "N1.COORDINATOR"
    components := [(bytes "com_A", ⟨bytes "id_A", 0⟩)]
    running := true }

/-- Conversation-id generator stand-in for timeout-scan evaluations. -/
def gen0 : Nat → List Nat := fun _ => List.replicate 16 0

lemma splitDot_ne_nil (l : List Nat) : splitDot l ≠ [] := by
  cases l with
  | nil => simp [splitDot]
  | cons b rest =>
      simp only [splitDot]
      split
      · simp
      · cases h : splitDot rest <;> simp

lemma splitDot_no_sep (l : List Nat) (h : 46 ∉ l) : splitDot l = [l] := by
  induction l with
  | nil => rfl
  | cons b rest ih =>
      have hb : ¬ b = 46 := fun hb => h (by simp [hb])
      have hr : splitDot rest = [rest] := ih (fun hm => h (List.mem_cons_of_mem _ hm))
      simp [splitDot, hb, hr]

lemma splitDot_sep (ns rest : List Nat) (h : 46 ∉ ns) :
    splitDot (ns ++ 46 :: rest) = ns :: splitDot rest := by
  induction ns with
  | nil => simp [splitDot]
  | cons b ns ih =>
      have hb : ¬ b = 46 := fun hb => h (by simp [hb])
      have hr := ih (fun hm => h (List.mem_cons_of_mem _ hm))
      simp only [List.cons_append, splitDot, hb, if_false, List.append_eq, hr]

lemma splitDot_length (l : List Nat) : (splitDot l).length = l.count 46 + 1 := by
  induction l with
  | nil => rfl
  | cons b rest ih =>
      by_cases hb : b = 46
      · simp [splitDot, hb, List.count_cons, ih]
      · have hne := splitDot_ne_nil rest
        cases h : splitDot rest with
        | nil => exact absurd h hne
        | cons g gs =>
            simp only [splitDot, hb, if_false, h]
            have := ih
            rw [h] at this
            simp only [List.length_cons] at this ⊢
            simp [List.count_cons, hb, ← this]

/-- C8: inputs with exactly one ASCII dot parse into (namespace, name); inputs with no
dot parse into an empty namespace and the whole input as name; inputs with two or more
dots fail to parse. -/
theorem c8_fullname_parse :
    (∀ ns nm : List Nat, 46 ∉ ns → 46 ∉ nm →
        FullName.from_slice (ns ++ 46 :: nm) = .ok ⟨ns, nm⟩) ∧
    (∀ l : List Nat, 46 ∉ l → FullName.from_slice l = .ok ⟨[], l⟩) ∧
    (∀ l : List Nat, 2 ≤ l.count 46 → ∃ e, FullName.from_slice l = .error e) := by
  refine ⟨fun ns nm hns hnm => ?_, fun l hl => ?_, fun l hl => ?_⟩
  · rw [FullName.from_slice, splitDot_sep ns nm hns, splitDot_no_sep nm hnm]
    rfl
  · rw [FullName.from_slice, splitDot_no_sep l hl]
    rfl
  · have hlen : 3 ≤ (splitDot l).length := by
      rw [splitDot_length]; omega
    rw [FullName.from_slice]
    rcases h : splitDot l with _ | ⟨a, _ | ⟨b, _ | ⟨c, r⟩⟩⟩ <;> rw [h] at hlen <;>
      simp at hlen
    exact ⟨_, rfl⟩

/-- C8 witness: the two positive branches at `abc.def` and `def`, and the negative
branch at `a.b.c`. -/
theorem c8_fullname_parse_witness :
    (46 ∉ bytes "abc" ∧ 46 ∉ bytes "def" ∧
      FullName.from_slice (bytes "abc" ++ 46 :: bytes "def") = .ok ⟨bytes "abc", bytes "def"⟩) ∧
    (FullName.from_slice (bytes "def") = .ok ⟨[], bytes "def"⟩) ∧
    (2 ≤ (bytes "a.b.c").count 46 ∧ ∃ e, FullName.from_slice (bytes "a.b.c") = .error e) :=
  ⟨⟨by decide, by decide,
      c8_fullname_parse.1 (bytes "abc") (bytes "def") (by decide) (by decide)⟩,
    c8_fullname_parse.2.1 (bytes "def") (by decide),
    by decide, c8_fullname_parse.2.2 (bytes "a.b.c") (by decide)⟩

/-- C7: the error taxonomy emits exactly the integer codes and messages of the table. -/
theorem c7_error_table :
    Error.code .ParseError = -32700 ∧ Error.code .InvalidRequest = -32600 ∧
    Error.code .MethodNotFound = -32601 ∧ Error.code .InvalidParams = -32602 ∧
    Error.code .InternalError = -32603 ∧ Error.code .ServerError = -32000 ∧
    Error.code .NotSignedIn = -32090 ∧ Error.code .DuplicateName = -32091 ∧
    Error.code .NodeUnknown = -32092 ∧ Error.code .ReceiverUnknown = -32093 ∧
    Error.message .ParseError = "Server error." ∧
    Error.message .InvalidRequest = "Server error." ∧
    Error.message .MethodNotFound = "Server error." ∧
    Error.message .InvalidParams = "Server error." ∧
    Error.message .InternalError = "Server error." ∧
    Error.message .ServerError = "Server error." ∧
    Error.message .NotSignedIn = "Component not signed in yet!" ∧
    Error.message .DuplicateName = "The name is already taken." ∧
    Error.message .NodeUnknown = "Node is unknown." ∧
    Error.message .ReceiverUnknown = "Receiver is not in addresses list." := by
  decide

/-- C1: with directory `com_A -> id_A` and an inbound message from identity `id_A`
whose receiver is the unknown `com_Z`, the claim expects an outbound ErrorResponse
(code -32093) delivered to `id_A`.  The code instead builds the error message with
`message.receiver_frame()` (the unknown receiver `com_Z`) as its destination, so the
second resolution fails again and `route_message` drops the message: the routing step
returns no delivery at all. -/
theorem c1_unknown_receiver_dropped :
    (route_message cC1 codec0 ⟨bytes "id_A", msgC1⟩ 5 (List.replicate 16 0)).map
      Prod.fst = some none := by
  rfl

/-- C2: a four-frame message (no content frame) addressed to COORDINATOR from an
unknown sender makes `check_message` evaluate `message.content_frame().unwrap()` on
`None`: the routing iteration panics (modelled as `none`) instead of converting the
failure into an ErrorResponse, dropping it, or clearing `running`. -/
theorem c2_route_message_panics_without_content_frame :
    route_message cEmpty codec0 ⟨bytes "id_C", msgC2⟩ 5 (List.replicate 16 0) = none := by
  rfl

/-- C3: with no directory entry for sender `com_D`, receiver short-name COORDINATOR and
no content frame, the claim says the check fails with NotSignedIn; the code panics on
`content_frame().unwrap()` instead (modelled as `none`). -/
theorem c3_check_message_panics_without_content_frame :
    check_message cEmpty codec0 (bytes "id_D") msgC3 ⟨[], bytes "com_D"⟩
      ⟨[], bytes "COORDINATOR"⟩ 7 = none := by
  rfl

lemma natToBE_append_lex (w : Nat) :
    ∀ a b : Nat, a < b → b < 256 ^ w → ∀ xs ys : List Nat,
      List.Lex (· < ·) (natToBE w a ++ xs) (natToBE w b ++ ys) := by
  induction w with
  | zero =>
      intro a b hab hb xs ys
      rw [pow_zero] at hb
      omega
  | succ w ih =>
      intro a b hab hb xs ys
      simp only [natToBE, List.cons_append]
      rcases Nat.lt_or_ge (a / 256 ^ w) (b / 256 ^ w) with hlt | hge
      · exact List.Lex.rel hlt
      · have hq : a / 256 ^ w = b / 256 ^ w := by
          have hle : a / 256 ^ w ≤ b / 256 ^ w :=
            Nat.div_le_div_right (Nat.le_of_lt hab)
          omega
        rw [hq]
        refine List.Lex.cons (ih _ _ ?_ (Nat.mod_lt _ (Nat.pow_pos (by norm_num))) xs ys)
        have ha := Nat.div_add_mod a (256 ^ w)
        have hb2 := Nat.div_add_mod b (256 ^ w)
        rw [hq] at ha
        have hsum : 256 ^ w * (b / 256 ^ w) + a % 256 ^ w <
            256 ^ w * (b / 256 ^ w) + b % 256 ^ w := by
          rw [ha, hb2]; exact hab
        exact Nat.lt_of_add_lt_add_left hsum

/-- C9: a conversation id generated at a strictly earlier wall-clock millisecond
timestamp compares strictly less, under unsigned lexicographic byte order, than one
generated later (UUIDv7 layout: big-endian 48-bit timestamp first). -/
theorem c9_conversation_id_time_ordered (tsa tsb : Nat) (ra rb : List Nat)
    (hab : tsa < tsb) (hb : tsb < 256 ^ 6) :
    List.Lex (· < ·) (create_conversation_id tsa ra) (create_conversation_id tsb rb) :=
  natToBE_append_lex 6 tsa tsb hab hb ra rb

/-- C9 witness: timestamps 1 and 2 with arbitrary random tails. -/
theorem c9_conversation_id_time_ordered_witness :
    1 < 2 ∧ 2 < 256 ^ 6 ∧
      List.Lex (· < ·) (create_conversation_id 1 (List.replicate 10 255))
        (create_conversation_id 2 (List.replicate 10 0)) :=
  ⟨by norm_num, by norm_num,
    c9_conversation_id_time_ordered 1 2 (List.replicate 10 255) (List.replicate 10 0)
      (by norm_num) (by norm_num)⟩

lemma header_of_parts (cidl midl : List Nat) (t : Nat) (h16 : cidl.length = 16)
    (h3 : midl.length = 3) :
    Header.from_frame (cidl ++ midl ++ [t]) = some ⟨cidl, midl, t⟩ := by
  have hlen : (cidl ++ (midl ++ [t])).length = 20 := by simp [h16, h3]
  have htake : (cidl ++ (midl ++ [t])).take 16 = cidl := List.take_left' h16
  have hdrop : (cidl ++ (midl ++ [t])).drop 16 = midl ++ [t] := List.drop_left' h16
  have hget : (cidl ++ (midl ++ [t]))[19]? = some t := by
    have h19 : (cidl ++ midl).length = 19 := by simp [h16, h3]
    rw [← List.append_assoc, List.getElem?_append_right (by omega), h19]
    simp
  simp only [Header.from_frame, List.append_assoc]
  rw [hlen, if_neg (by omega), htake, hdrop, List.take_left' h3, hget]
  rfl

/-- C4: parsing the frames built by the control-message builder returns a message whose
receiver frame is `r`, sender frame is `s`, header conversation id is the given 16-byte
id (or the freshly generated one when absent), header message id is the given 3 bytes
(or three zero bytes), header type byte is `t`, and payload is the given frame list. -/
theorem c4_build_parse_roundtrip (r s : List Nat) (cid mid : Option (List Nat)) (t : Nat)
    (payload : List (List Nat)) (fresh : List Nat)
    (hcid : (cid.getD fresh).length = 16) (hmid : (mid.getD [0, 0, 0]).length = 3) :
    ∃ m : Message,
      Message.new (Message.build r s cid mid t (.Frames payload) fresh).to_frames =
        .ok m ∧
      m.version = some VERSION ∧ m.receiver_frame = r ∧ m.sender_frame = s ∧
      m.header = some ⟨cid.getD fresh, mid.getD [0, 0, 0], t⟩ ∧
      m.payload = payload := by
  refine ⟨Message.build r s cid mid t (.Frames payload) fresh, ?_, rfl, rfl, rfl, ?_, rfl⟩
  · have hlen : (Message.build r s cid mid t (.Frames payload) fresh).to_frames.length =
        4 + payload.length := by
      simp [Message.build, Message.to_frames]
      omega
    rw [Message.new, hlen, if_neg (by omega)]
    rfl
  · show Header.from_frame
      ((Message.build r s cid mid t (.Frames payload) fresh).frames.getD 3 []) = _
    have hhdr : (Message.build r s cid mid t (.Frames payload) fresh).frames.getD 3 [] =
        cid.getD fresh ++ mid.getD [0, 0, 0] ++ [t] := rfl
    rw [hhdr]
    exact header_of_parts _ _ _ hcid hmid

/-- C4 witness: a concrete build/parse round trip with an explicit conversation id and
an absent message id. -/
theorem c4_build_parse_roundtrip_witness :
    ((some (List.replicate 16 7)).getD (List.replicate 16 0)).length = 16 ∧
    ((none : Option (List Nat)).getD [0, 0, 0]).length = 3 ∧
    ∃ m : Message,
      Message.new (Message.build (bytes "N1.receiver") (bytes "N1.sender")
          (some (List.replicate 16 7)) none 1 (.Frames [bytes "content"])
          (List.replicate 16 0)).to_frames = .ok m ∧
      m.version = some VERSION ∧ m.receiver_frame = bytes "N1.receiver" ∧
      m.sender_frame = bytes "N1.sender" ∧
      m.header = some ⟨(some (List.replicate 16 7)).getD (List.replicate 16 0),
        (none : Option (List Nat)).getD [0, 0, 0], 1⟩ ∧
      m.payload = [bytes "content"] :=
  ⟨by decide, by decide,
    c4_build_parse_roundtrip (bytes "N1.receiver") (bytes "N1.sender")
      (some (List.replicate 16 7)) none 1 [bytes "content"] (List.replicate 16 0)
      (by decide) (by decide)⟩

/-- C10: building with the Null content variant yields exactly the four mandatory
frames, so `content_frame` is `none` and the payload is empty, while `Message::new`
accepts any frame vector with at least four frames. -/
theorem c10_null_build_four_frames (r s : List Nat) (cid mid : Option (List Nat))
    (t : Nat) (fresh : List Nat) :
    (Message.build r s cid mid t .Null fresh).frames.length = 4 ∧
    (Message.build r s cid mid t .Null fresh).version = some VERSION ∧
    (Message.build r s cid mid t .Null fresh).receiver_frame = r ∧
    (Message.build r s cid mid t .Null fresh).sender_frame = s ∧
    (Message.build r s cid mid t .Null fresh).content_frame = none ∧
    (Message.build r s cid mid t .Null fresh).payload = [] ∧
    ∀ fs : List (List Nat), 4 ≤ fs.length → Message.new fs = .ok ⟨fs⟩ := by
  refine ⟨rfl, rfl, rfl, rfl, rfl, rfl, fun fs hfs => ?_⟩
  rw [Message.new, if_neg (by omega)]

/-- C10 witness: a concrete Null build and a concrete five-frame vector accepted by the
parser. -/
theorem c10_null_build_four_frames_witness :
    (Message.build (bytes "rec") (bytes "snd") none none 1 .Null
      (List.replicate 16 0)).content_frame = none ∧
    4 ≤ ([[1], [2], [3], [4], [5]] : List (List Nat)).length ∧
    Message.new [[1], [2], [3], [4], [5]] = .ok ⟨[[1], [2], [3], [4], [5]]⟩ :=
  ⟨(c10_null_build_four_frames (bytes "rec") (bytes "snd") none none 1
      (List.replicate 16 0)).2.2.2.2.1,
    by decide,
    (c10_null_build_four_frames (bytes "rec") (bytes "snd") none none 1
      (List.replicate 16 0)).2.2.2.2.2.2 [[1], [2], [3], [4], [5]] (by decide)⟩

lemma ping_stale_complete (c : Coordinator) (codec : JsonCodec) (now : Nat)
    (gen : Nat → List Nat) :
    ∀ (l : List (List Nat × Component)) (i : Nat) (k : List Nat) (v : Component),
      (k, v) ∈ l → 10 ≤ now - v.timestamp →
      ∃ f, (v.identity, Message.build k c.full_name none none 1
        (.Frame (codec.serRequest (Request.build 0 "pong"))) f) ∈
          ping_stale c codec now gen l i := by
  intro l
  induction l with
  | nil => intro i k v h; cases h
  | cons e rest ih =>
      obtain ⟨k2, v2⟩ := e
      intro i k v hmem hidle
      rcases List.mem_cons.mp hmem with heq | htail
      · cases heq
        refine ⟨gen i, ?_⟩
        simp only [ping_stale, if_pos hidle]
        exact List.mem_cons_self _ _
      · by_cases hc : 10 ≤ now - v2.timestamp
        · obtain ⟨f, hf⟩ := ih (i + 1) k v htail hidle
          refine ⟨f, ?_⟩
          simp only [ping_stale, if_pos hc]
          exact List.mem_cons_of_mem _ hf
        · obtain ⟨f, hf⟩ := ih i k v htail hidle
          refine ⟨f, ?_⟩
          simpa only [ping_stale, if_neg hc] using hf

lemma ping_stale_sound (c : Coordinator) (codec : JsonCodec) (now : Nat)
    (gen : Nat → List Nat) :
    ∀ (l : List (List Nat × Component)) (i : Nat) (p : List Nat × Message),
      p ∈ ping_stale c codec now gen l i →
      ∃ k v f, (k, v) ∈ l ∧ 10 ≤ now - v.timestamp ∧
        p = (v.identity, Message.build k c.full_name none none 1
          (.Frame (codec.serRequest (Request.build 0 "pong"))) f) := by
  intro l
  induction l with
  | nil => intro i p h; simp [ping_stale] at h
  | cons e rest ih =>
      obtain ⟨k2, v2⟩ := e
      intro i p hp
      by_cases hc : 10 ≤ now - v2.timestamp
      · rw [ping_stale, if_pos hc] at hp
        rcases List.mem_cons.mp hp with heq | htail
        · exact ⟨k2, v2, gen i, List.mem_cons_self _ _, hc, heq⟩
        · obtain ⟨k, v, f, hm, hi, hpe⟩ := ih (i + 1) p htail
          exact ⟨k, v, f, List.mem_cons_of_mem _ hm, hi, hpe⟩
      · rw [ping_stale, if_neg hc] at hp
        obtain ⟨k, v, f, hm, hi, hpe⟩ := ih i p hp
        exact ⟨k, v, f, List.mem_cons_of_mem _ hm, hi, hpe⟩

/-- C6 counterexample: an entry idle for exactly the eviction threshold of 30 seconds
is NOT removed by the timeout scan (the code retains entries with `elapsed <= 30 s`),
so after the scan the directory still holds an entry idle for the threshold. -/
theorem c6_entry_at_eviction_threshold_survives :
    30 ≤ 30 - (0 : Nat) ∧
    (bytes "com_A", (⟨bytes "id_A", 0⟩ : Component)) ∈
      ((check_timeouts cC6 codec0 30 gen0).1).components := by
  decide

/-- C6 (amended): the timeout scan sends a pong request to every entry whose idle time
is at least the ping threshold of 10 seconds (the ping itself removes nothing), and it
removes exactly the entries whose idle time strictly exceeds the eviction threshold of
30 seconds, so that after the scan the directory contains no entry idle for strictly
longer than the eviction threshold. -/
theorem c6_check_timeouts_amended (c : Coordinator) (codec : JsonCodec) (now : Nat)
    (gen : Nat → List Nat) :
    (∀ k v, (k, v) ∈ c.components → 10 ≤ now - v.timestamp →
      ∃ f, (v.identity, Message.build k c.full_name none none 1
        (.Frame (codec.serRequest (Request.build 0 "pong"))) f) ∈
          (check_timeouts c codec now gen).2) ∧
    (∀ p ∈ (check_timeouts c codec now gen).2, ∃ k v f, (k, v) ∈ c.components ∧
      10 ≤ now - v.timestamp ∧ p = (v.identity, Message.build k c.full_name none none 1
        (.Frame (codec.serRequest (Request.build 0 "pong"))) f)) ∧
    (∀ k v, (k, v) ∈ ((check_timeouts c codec now gen).1).components ↔
      ((k, v) ∈ c.components ∧ now - v.timestamp ≤ 30)) := by
  refine ⟨fun k v hm hi => ?_, fun p hp => ?_, fun k v => ?_⟩
  · exact ping_stale_complete c codec now gen c.components 0 k v hm hi
  · exact ping_stale_sound c codec now gen c.components 0 p hp
  · simp only [check_timeouts, List.mem_filter, decide_eq_true_eq]

/-- C6 witness: a fresh entry (idle 5 s) is kept by the scan. -/
theorem c6_check_timeouts_amended_witness :
    (bytes "com_A", (⟨bytes "id_A", 0⟩ : Component)) ∈
      ((check_timeouts cC6 codec0 5 gen0).1).components := by
  have h := (c6_check_timeouts_amended cC6 codec0 5 gen0).2.2 (bytes "com_A")
    ⟨bytes "id_A", 0⟩
  exact h.mpr ⟨by decide, by decide⟩

lemma header_cid_length (frame : List Nat) (h : Header)
    (hh : Header.from_frame frame = some h) : h.conversation_id.length = 16 := by
  rw [Header.from_frame] at hh
  by_cases hl : frame.length < 20
  · rw [if_pos hl] at hh; cases hh
  · rw [if_neg hl] at hh
    cases hh
    simp only [List.length_take]
    omega

lemma reply_message_props (receiver full cidl content fresh : List Nat)
    (hcid : cidl.length = 16) :
    (Message.build receiver full (some cidl) none 1 (.Frame content) fresh).receiver_frame
        = receiver ∧
    (Message.build receiver full (some cidl) none 1 (.Frame content) fresh).sender_frame
        = full ∧
    (Message.build receiver full (some cidl) none 1 (.Frame content) fresh).header
        = some ⟨cidl, [0, 0, 0], 1⟩ ∧
    (Message.build receiver full (some cidl) none 1 (.Frame content) fresh).content_frame
        = some content := by
  refine ⟨rfl, rfl, ?_, rfl⟩
  show Header.from_frame
    ((Message.build receiver full (some cidl) none 1 (.Frame content) fresh).frames.getD
      3 []) = _
  have hhdr : (Message.build receiver full (some cidl) none 1
      (.Frame content) fresh).frames.getD 3 [] = cidl ++ [0, 0, 0] ++ [1] := rfl
  rw [hhdr]
  exact header_of_parts cidl [0, 0, 0] 1 hcid rfl

/-- C5: for messages directed at the Coordinator itself, the self-handler replies to
the original sender with the incoming conversation id: a Response with result null for
the methods sign_in, sign_out (removing the sender's directory entry), pong and
shut_down (clearing `running`); an ErrorResponse InvalidRequest for any other method;
and an ErrorResponse ParseError when the content frame is missing or does not parse as
a Request. -/
theorem c5_self_handler_spec (c : Coordinator) (codec : JsonCodec) (m : Message)
    (sn : FullName) (fresh : List Nat) (h : Header) (hh : m.header = some h) :
    (m.content_frame = none →
      ∃ r, handle_message_content c codec m sn fresh = some (r, c) ∧
        r.receiver_frame = m.sender_frame ∧
        r.header = some ⟨h.conversation_id, [0, 0, 0], 1⟩ ∧
        r.content_frame = some (codec.serErrorResponse (ErrorResponse.build 0
          (Error.code .ParseError) (Error.message .ParseError)))) ∧
    (∀ content, m.content_frame = some content → codec.parseRequest content = none →
      ∃ r, handle_message_content c codec m sn fresh = some (r, c) ∧
        r.receiver_frame = m.sender_frame ∧
        r.header = some ⟨h.conversation_id, [0, 0, 0], 1⟩ ∧
        r.content_frame = some (codec.serErrorResponse (ErrorResponse.build 0
          (Error.code .ParseError) (Error.message .ParseError)))) ∧
    (∀ content req, m.content_frame = some content →
        codec.parseRequest content = some req →
      ((req.method = "sign_in" ∨ req.method = "pong") →
        ∃ r, handle_message_content c codec m sn fresh = some (r, c) ∧
          r.receiver_frame = m.sender_frame ∧
          r.header = some ⟨h.conversation_id, [0, 0, 0], 1⟩ ∧
          r.content_frame = some (codec.serResponse (Response.build req.id none))) ∧
      (req.method = "sign_out" →
        ∃ r, handle_message_content c codec m sn fresh =
            some (r, { c with components := mapRemove c.components sn.name }) ∧
          r.receiver_frame = m.sender_frame ∧
          r.header = some ⟨h.conversation_id, [0, 0, 0], 1⟩ ∧
          r.content_frame = some (codec.serResponse (Response.build req.id none))) ∧
      (req.method = "shut_down" →
        ∃ r, handle_message_content c codec m sn fresh =
            some (r, { c with running := false }) ∧
          r.receiver_frame = m.sender_frame ∧
          r.header = some ⟨h.conversation_id, [0, 0, 0], 1⟩ ∧
          r.content_frame = some (codec.serResponse (Response.build req.id none))) ∧
      (req.method ≠ "sign_in" → req.method ≠ "sign_out" → req.method ≠ "pong" →
          req.method ≠ "shut_down" →
        ∃ r, handle_message_content c codec m sn fresh = some (r, c) ∧
          r.receiver_frame = m.sender_frame ∧
          r.header = some ⟨h.conversation_id, [0, 0, 0], 1⟩ ∧
          r.content_frame = some (codec.serErrorResponse (ErrorResponse.build 0
            (Error.code .InvalidRequest) (Error.message .InvalidRequest))))) := by
  have hcl : h.conversation_id.length = 16 := header_cid_length _ h hh
  refine ⟨fun hcf => ?_, fun content hcf hpr => ?_, fun content req hcf hpr => ?_⟩
  · obtain ⟨p1, p2, p3, p4⟩ := reply_message_props m.sender_frame c.full_name
      h.conversation_id (codec.serErrorResponse (ErrorResponse.build 0
        (Error.code .ParseError) (Error.message .ParseError))) fresh hcl
    refine ⟨_, ?_, p1, p3, p4⟩
    simp only [handle_message_content, hh, hcf]
    rfl
  · obtain ⟨p1, p2, p3, p4⟩ := reply_message_props m.sender_frame c.full_name
      h.conversation_id (codec.serErrorResponse (ErrorResponse.build 0
        (Error.code .ParseError) (Error.message .ParseError))) fresh hcl
    refine ⟨_, ?_, p1, p3, p4⟩
    simp only [handle_message_content, hh, hcf, hpr]
    rfl
  · refine ⟨fun hm => ?_, fun hm => ?_, fun hm => ?_, fun h1 h2 h3 h4 => ?_⟩
    · obtain ⟨p1, p2, p3, p4⟩ := reply_message_props m.sender_frame c.full_name
        h.conversation_id (codec.serResponse (Response.build req.id none)) fresh hcl
      refine ⟨_, ?_, p1, p3, p4⟩
      rcases hm with hm | hm <;>
        simp only [handle_message_content, hh, hcf, hpr, hm] <;> rfl
    · obtain ⟨p1, p2, p3, p4⟩ := reply_message_props m.sender_frame c.full_name
        h.conversation_id (codec.serResponse (Response.build req.id none)) fresh hcl
      refine ⟨_, ?_, p1, p3, p4⟩
      simp only [handle_message_content, hh, hcf, hpr, hm]
      rfl
    · obtain ⟨p1, p2, p3, p4⟩ := reply_message_props m.sender_frame c.full_name
        h.conversation_id (codec.serResponse (Response.build req.id none)) fresh hcl
      refine ⟨_, ?_, p1, p3, p4⟩
      simp only [handle_message_content, hh, hcf, hpr, hm]
      rfl
    · obtain ⟨p1, p2, p3, p4⟩ := reply_message_props m.sender_frame c.full_name
        h.conversation_id (codec.serErrorResponse (ErrorResponse.build 0
          (Error.code .InvalidRequest) (Error.message .InvalidRequest))) fresh hcl
      refine ⟨_, ?_, p1, p3, p4⟩
      simp only [handle_message_content, hh, hcf, hpr]
      rw [if_neg h1, if_neg h2, if_neg h3, if_neg h4]
      rfl

/-- Codec stand-in whose `from_slice::<Request>` always yields a sign_out request. -/
def codecW : JsonCodec :=
  { parseRequest := fun _ => some (Request.build 2 "sign_out")
    serRequest := fun _ => []
    serResponse := fun _ => [7]
    serErrorResponse := fun _ => [8] }

/-- A five-frame message addressed to the Coordinator with content frame `[1]`. -/
def msgW : Message := ⟨[[0], bytes "N1.COORDINATOR", bytes "N1.com_A", hdr20, [1]]⟩

/-- C5 witness: a concrete sign_out request removes `com_A` from the directory and is
answered with a null-result Response carrying the incoming conversation id. -/
theorem c5_self_handler_spec_witness :
    ∃ r, handle_message_content cC6 codecW msgW ⟨bytes "N1", bytes "com_A"⟩
        (List.replicate 16 0) =
        some (r, { cC6 with
          components := mapRemove cC6.components (FullName.mk (bytes "N1")
            (bytes "com_A")).name }) ∧
      r.receiver_frame = msgW.sender_frame ∧
      r.header = some ⟨(Header.mk (List.replicate 16 0) [0, 0, 0] 0).conversation_id,
        [0, 0, 0], 1⟩ ∧
      r.content_frame = some (codecW.serResponse
        (Response.build (Request.build 2 "sign_out").id none)) :=
  ((c5_self_handler_spec cC6 codecW msgW ⟨bytes "N1", bytes "com_A"⟩
      (List.replicate 16 0) ⟨List.replicate 16 0, [0, 0, 0], 0⟩ (by decide)).2.2
    [1] (Request.build 2 "sign_out") rfl rfl).2.1 rfl

end Ruleco
